import Mathlib

/-!
Verification of the wine fermentation simulator (`src/main.rs`,
`WineFermentationApp::simulate`) against its specification.

The embedding follows the Rust source line by line.  Machine floating-point
(`f64`) values are idealized: quantities that the program obtains by exact
decimal arithmetic (parsed inputs, climate modifiers, effective sugar,
potential ABV) are modelled with `ℚ`, and quantities that go through `exp` /
`powf` (the fermentation kinetics and everything downstream of them) are
modelled with `ℝ`.  String handling mirrors the byte-level ASCII operations
the program uses (`to_lowercase` on the ASCII strings it is compared with,
`eq_ignore_ascii_case`, `trim`).
-/

namespace WineMaker

open scoped Classical

/-- A row of the bundled wine data set (`struct WineRecord` in the source):
a grape name and its characteristics text. -/
structure WineRecord where
  grape : String
  characteristics : String
deriving DecidableEq

/-- The six free-text fields the form hands to `simulate` (the string-typed
fields of `struct WineFermentationApp`). -/
structure SimInput where
  grapeType : String
  fermentationDays : String
  containerType : String
  sugarContent : String
  temperature : String
  climate : String
deriving DecidableEq

/-- Numeric value of a list of decimal digit characters. -/
def digitsToNat (cs : List Char) : Nat :=
  cs.foldl (fun a c => a * 10 + (c.toNat - 48)) 0

/-- A nonempty, all-digit character list. -/
def allDigits (cs : List Char) : Bool :=
  !cs.isEmpty && cs.all (fun c => c.isDigit)

/-- Range check of Rust's `i32::from_str`: the magnitude must fit in a
32-bit two's-complement integer (negative values reach `2^31`). -/
def i32OfParts (neg : Bool) (n : Nat) : Option Int :=
  if neg then (if n ≤ 2 ^ 31 then some (-(n : Int)) else none)
  else (if n ≤ 2 ^ 31 - 1 then some (n : Int) else none)

/-- Model of Rust's `str::parse::<i32>`: an optional sign followed by one or
more ASCII digits, rejected when out of the `i32` range; anything else is a
parse error (`none`). -/
def parseI32 (s : String) : Option Int :=
  match s.toList with
  | '+' :: rest => if allDigits rest then i32OfParts false (digitsToNat rest) else none
  | '-' :: rest => if allDigits rest then i32OfParts true (digitsToNat rest) else none
  | cs => if allDigits cs then i32OfParts false (digitsToNat cs) else none

/-- Value of an integer digit string together with a fractional digit
string, as an exact rational. -/
def decToRat (ip fp : List Char) : ℚ :=
  (digitsToNat ip : ℚ) + (digitsToNat fp : ℚ) / (10 : ℚ) ^ fp.length

/-- Significand of Rust's `f64` grammar: `Digits '.'? Digits?` or
`'.' Digits` (at least one digit overall, at most one dot). -/
def parseMantissa (cs : List Char) : Option ℚ :=
  let ip := cs.takeWhile (fun c => c != '.')
  let rest := cs.dropWhile (fun c => c != '.')
  match rest with
  | [] => if allDigits ip then some (digitsToNat ip : ℚ) else none
  | '.' :: fp =>
      if ip.all (fun c => c.isDigit) && fp.all (fun c => c.isDigit)
          && (!ip.isEmpty || !fp.isEmpty) then
        some (decToRat ip fp)
      else none
  | _ => none

/-- Exponent part of Rust's `f64` grammar: optional sign, one or more
digits. -/
def parseExp (cs : List Char) : Option Int :=
  match cs with
  | '+' :: r => if allDigits r then some (digitsToNat r : Int) else none
  | '-' :: r => if allDigits r then some (-(digitsToNat r : Int)) else none
  | r => if allDigits r then some (digitsToNat r : Int) else none

/-- Unsigned body of the `f64` grammar: a significand optionally followed by
`e`/`E` and an exponent. -/
def parseF64Body (cs : List Char) : Option ℚ :=
  let mant := cs.takeWhile (fun c => c != 'e' && c != 'E')
  let rest := cs.dropWhile (fun c => c != 'e' && c != 'E')
  match rest with
  | [] => parseMantissa mant
  | _ :: expPart =>
      match parseMantissa mant, parseExp expPart with
      | some m, some e => some (m * (10 : ℚ) ^ e)
      | _, _ => none

/-- Rational-valued model of Rust's `str::parse::<f64>` on finite decimal
numerals (optional sign, digits, optional fractional part, optional
exponent).  The `inf`/`NaN` spellings lie outside this real-number model,
and binary floating-point rounding is idealized away: the parsed value is
the exact decimal value of the numeral. -/
def parseF64 (s : String) : Option ℚ :=
  match s.toList with
  | '+' :: rest => parseF64Body rest
  | '-' :: rest => (parseF64Body rest).map (fun q => -q)
  | cs => parseF64Body cs

/-- ASCII lowercasing of a string, one character at a time (Lean's
`Char.toLower` maps exactly the ASCII letters `A`–`Z`).  This models Rust's
`to_lowercase` on the inputs that matter here: every string the program
compares a lowercased value against is plain ASCII. -/
def lowerAscii (s : String) : String :=
  String.mk (s.data.map Char.toLower)

/-- Leading and trailing whitespace removal on a character list. -/
def trimChars (cs : List Char) : List Char :=
  (((cs.dropWhile Char.isWhitespace).reverse).dropWhile Char.isWhitespace).reverse

/-- Model of Rust's `str::trim` (whitespace stripped from both ends; the
inputs of interest are ASCII, where Rust's and Lean's whitespace notions
agree). -/
def trimStr (s : String) : String :=
  String.mk (trimChars s.data)

/-- Model of Rust's `str::eq_ignore_ascii_case`: equality after ASCII
lowercasing of both sides. -/
def eqIgnoreAsciiCase (a b : String) : Bool :=
  lowerAscii a == lowerAscii b

/-- Climate modifier table of `simulate` (lines 60–65 of the source): the
lowercased climate string selects `(sugar_mod, acidity_mod, tannin_mod)`. -/
def climateMods (climate : String) : ℚ × ℚ × ℚ :=
  if lowerAscii climate = "cool" then (9/10, 11/10, 1)
  else if lowerAscii climate = "moderate" then (1, 1, 1)
  else if lowerAscii climate = "warm" then (11/10, 9/10, 11/10)
  else (1, 1, 1)

/-- Sugar modifier selected by the climate. -/
def sugarMod (climate : String) : ℚ := (climateMods climate).1

/-- Acidity modifier selected by the climate (bound to `_acidity_mod` in the
source and never used afterwards). -/
def acidityMod (climate : String) : ℚ := (climateMods climate).2.1

/-- Tannin modifier selected by the climate. -/
def tanninMod (climate : String) : ℚ := (climateMods climate).2.2

/-- Parsed fermentation days: `self.fermentation_days.trim().parse::<i32>().unwrap_or_default()`. -/
def daysOf (input : SimInput) : Int :=
  (parseI32 (trimStr input.fermentationDays)).getD 0

/-- Parsed sugar content: `self.sugar_content.trim().parse::<i32>().unwrap_or_default()`. -/
def sugarInputOf (input : SimInput) : Int :=
  (parseI32 (trimStr input.sugarContent)).getD 0

/-- Parsed temperature: `self.temperature.trim().parse::<f64>().unwrap_or_default()`. -/
def temperatureOf (input : SimInput) : ℚ :=
  (parseF64 (trimStr input.temperature)).getD 0

/-- The conversion constant of the source, `16.83` g/L of sugar per 1% of
ABV. -/
def convFactor : ℚ := 1683/100

/-- Effective sugar: `sugar_content = (user_sugar_input as f64) * sugar_mod`. -/
def effSugarOf (input : SimInput) : ℚ :=
  (sugarInputOf input : ℚ) * sugarMod input.climate

/-- Potential ABV: `potential_abv = sugar_content / conversion_factor`. -/
def potentialAbvOf (input : SimInput) : ℚ :=
  effSugarOf input / convFactor

/-- Fermentation rate constant: `k = k_ref * q10.powf((temperature - ref_temp) / 10.0)`
with `k_ref = 0.20`, `q10 = 2.0`, `ref_temp = 20.0`. -/
noncomputable def kRate (t : ℚ) : ℝ :=
  0.20 * (2 : ℝ) ^ (((t : ℝ) - 20) / 10)

/-- Raw fermented fraction before the clamp:
`1.0 - (-k * (fermentation_days as f64)).exp()`. -/
noncomputable def fractionRaw (t : ℚ) (d : Int) : ℝ :=
  1 - Real.exp (-(kRate t) * (d : ℝ))

/-- Fermented fraction after the `> 1.0` clamp of lines 84–86. -/
noncomputable def fractionClamped (t : ℚ) (d : Int) : ℝ :=
  if fractionRaw t d > 1 then 1 else fractionRaw t d

/-- The fermented fraction of the input before the ABV-cap recomputation. -/
noncomputable def precapFractionOf (input : SimInput) : ℝ :=
  fractionClamped (temperatureOf input) (daysOf input)

/-- Sugar consumed: `sugar_consumed = fraction_fermented * sugar_content`
(never reassigned afterwards, even when the ABV cap fires). -/
noncomputable def sugarConsumedOf (input : SimInput) : ℝ :=
  precapFractionOf input * (effSugarOf input : ℝ)

/-- Actual ABV before the cap: `sugar_consumed / conversion_factor`. -/
noncomputable def precapAbvOf (input : SimInput) : ℝ :=
  sugarConsumedOf input / (convFactor : ℝ)

/-- The ABV cap `max_abv = 15.0`. -/
noncomputable def maxAbv : ℝ := 15

/-- Reported actual ABV: clamped to `max_abv` when the uncapped value
exceeds it (lines 91–96). -/
noncomputable def actualAbvOf (input : SimInput) : ℝ :=
  if precapAbvOf input > maxAbv then maxAbv else precapAbvOf input

/-- Reported fermented fraction: recomputed as
`(max_abv * conversion_factor) / sugar_content` when the cap fires,
otherwise the clamped fraction. -/
noncomputable def fractionOf (input : SimInput) : ℝ :=
  if precapAbvOf input > maxAbv then
    maxAbv * (convFactor : ℝ) / (effSugarOf input : ℝ)
  else precapFractionOf input

/-- Residual sugar: `sugar_content - sugar_consumed`, where `sugar_consumed`
is the value computed before the cap. -/
noncomputable def residualSugarOf (input : SimInput) : ℝ :=
  (effSugarOf input : ℝ) - sugarConsumedOf input

/-- Sweetness descriptor thresholds of lines 99–107. -/
noncomputable def sweetnessOf (residualSugar : ℝ) : String :=
  if residualSugar > 35 then "extremely sweet"
  else if residualSugar > 20 then "noticeably sweet"
  else if residualSugar > 5 then "with just a subtle hint of sweetness"
  else "bone dry"

/-- Body descriptor thresholds of lines 109–115. -/
noncomputable def bodyOf (abv : ℝ) : String :=
  if abv > 12 then "full-bodied"
  else if abv ≥ 10 then "medium-bodied"
  else "light-bodied"

/-- Alcohol-level descriptor thresholds of lines 117–131. -/
noncomputable def alcoholLevelOf (abv : ℝ) : String :=
  if abv ≤ 1 then "extremely low"
  else if abv < 5 then "very low"
  else if abv < 10 then "low"
  else if abv < 13.5 then "moderate"
  else if abv < 15 then "high"
  else if abv < 20 then "very high"
  else "extremely high"

/-- Grape-specific base tannin text (lines 133–145, keyed on the lowercased
grape string). -/
def tanninBase (grape : String) : String :=
  if lowerAscii grape = "cabernet sauvignon" then "robust, high tannins"
  else if lowerAscii grape = "merlot" then "smooth, moderate tannins"
  else if lowerAscii grape = "pinot noir" then "delicate, low tannins"
  else if lowerAscii grape = "syrah" then "moderate tannins"
  else if lowerAscii grape = "shiraz" then "moderate tannins"
  else if lowerAscii grape = "tempranillo" then "moderate tannins"
  else if lowerAscii grape = "zinfandel" then "spicy, moderately high tannins"
  else if lowerAscii grape = "sangiovese" then "moderate tannins"
  else if lowerAscii grape = "chardonnay" then "minimal tannins"
  else if lowerAscii grape = "sauvignon blanc" then "minimal tannins"
  else if lowerAscii grape = "riesling" then "very minimal tannins"
  else "unknown tannin levels"

/-- Climate adjustment of the tannin text (lines 147–156): a suffix is
appended when the tannin modifier is above or below 1. -/
def tanninAdjust (base : String) (tmod : ℚ) : String :=
  if tmod > 1 then base ++ " (slightly accentuated by the warm climate)"
  else if tmod < 1 then base ++ " (somewhat less pronounced in the cool climate)"
  else base

/-- Acidity descriptor (lines 158–163, keyed on the lowercased climate). -/
def acidityOf (climate : String) : String :=
  if lowerAscii climate = "cool" then "high"
  else if lowerAscii climate = "moderate" then "moderate"
  else if lowerAscii climate = "warm" then "low"
  else "unknown"

/-- Container note (lines 177–183, keyed on the lowercased container). -/
def containerNoteOf (container : String) : String :=
  if lowerAscii container = "oak barrel" then "woody, oaky undertones"
  else if lowerAscii container = "steel tank" then "a pristine, clean character"
  else if lowerAscii container = "clay amphora" then "earthy nuances"
  else "a distinct vessel charm"

/-- The flavor-table rows whose grape matches the input grape
case-insensitively (lines 165–169). -/
def matchesOf (wineData : List WineRecord) (grape : String) : List WineRecord :=
  wineData.filter (fun r => eqIgnoreAsciiCase r.grape grape)

/-- Model of `SliceRandom::choose`: an arbitrary element of the list,
selected here by an externally supplied index; `none` exactly when the list
is empty, as for the library function. -/
def chooseRand (l : List WineRecord) (pick : Nat) : Option WineRecord :=
  l.get? (pick % l.length)

/-- Flavor note selection (lines 170–175).  The `Except.error` case models
the `unwrap()` on the chosen row aborting the program. -/
def flavorExcept (wineData : List WineRecord) (grape : String) (pick : Nat) :
    Except String String :=
  if (matchesOf wineData grape).isEmpty then Except.ok "unknown flavor profile"
  else
    match chooseRand (matchesOf wineData grape) pick with
    | some r => Except.ok r.characteristics
    | none => Except.error "unwrap of a missing flavor row"

/-- The exact failure text of lines 73–74. -/
def failureMsg : String :=
  "Fermentation failed: temperature out of range for yeast activity."

/-- The structured content of the success result: every derived quantity
that `simulate` interpolates into its result text. -/
structure SimOutput where
  sugarContent : ℚ
  potentialAbv : ℚ
  temperature : ℚ
  fermentationDays : Int
  fractionFermented : ℝ
  actualAbv : ℝ
  residualSugar : ℝ
  sweetness : String
  body : String
  alcoholLevel : String
  tanninLevel : String
  acidity : String
  flavorNote : String
  containerNote : String

/-- Result of a `simulate` call: either the terminal failure message of the
temperature gate, or the full set of computed outputs. -/
inductive SimResult where
  | failure (message : String) : SimResult
  | success (output : SimOutput) : SimResult

/-- The output record built on the success path of `simulate`, given the
selected flavor note. -/
noncomputable def successOutput (input : SimInput) (gc : String) : SimOutput where
  sugarContent := effSugarOf input
  potentialAbv := potentialAbvOf input
  temperature := temperatureOf input
  fermentationDays := daysOf input
  fractionFermented := fractionOf input
  actualAbv := actualAbvOf input
  residualSugar := residualSugarOf input
  sweetness := sweetnessOf (residualSugarOf input)
  body := bodyOf (actualAbvOf input)
  alcoholLevel := alcoholLevelOf (actualAbvOf input)
  tanninLevel := tanninAdjust (tanninBase input.grapeType) (tanninMod input.climate)
  acidity := acidityOf input.climate
  flavorNote := gc
  containerNote := containerNoteOf input.containerType

/-- Shallow embedding of `WineFermentationApp::simulate`: parse the string
fields, gate on the temperature, and either fail or assemble the output.
The `Except` layer records the one possible abort of the source (the
`unwrap()` on the randomly chosen flavor row). -/
noncomputable def simulate (wineData : List WineRecord) (pick : Nat)
    (input : SimInput) : Except String SimResult :=
  if temperatureOf input < 5 ∨ temperatureOf input > 40 then
    Except.ok (SimResult.failure failureMsg)
  else
    match flavorExcept wineData input.grapeType pick with
    | Except.error e => Except.error e
    | Except.ok gc => Except.ok (SimResult.success (successOutput input gc))

/-! ### General lemmas about the embedding -/

theorem climateMods_cool (c : String) (h : lowerAscii c = "cool") :
    climateMods c = (9/10, 11/10, 1) := by
  unfold climateMods
  rw [h, if_pos rfl]

theorem climateMods_moderate (c : String) (h : lowerAscii c = "moderate") :
    climateMods c = (1, 1, 1) := by
  unfold climateMods
  rw [h, if_neg (by decide), if_pos rfl]

theorem climateMods_warm (c : String) (h : lowerAscii c = "warm") :
    climateMods c = (11/10, 9/10, 11/10) := by
  unfold climateMods
  rw [h, if_neg (by decide), if_neg (by decide), if_pos rfl]

theorem climateMods_other (c : String) (h1 : lowerAscii c ≠ "cool")
    (h2 : lowerAscii c ≠ "moderate") (h3 : lowerAscii c ≠ "warm") :
    climateMods c = (1, 1, 1) := by
  unfold climateMods
  rw [if_neg h1, if_neg h2, if_neg h3]

theorem sugarMod_cases (c : String) :
    sugarMod c = 9/10 ∨ sugarMod c = 1 ∨ sugarMod c = 11/10 := by
  by_cases h1 : lowerAscii c = "cool"
  · rw [sugarMod, climateMods_cool c h1]; left; rfl
  by_cases h2 : lowerAscii c = "moderate"
  · rw [sugarMod, climateMods_moderate c h2]; right; left; rfl
  by_cases h3 : lowerAscii c = "warm"
  · rw [sugarMod, climateMods_warm c h3]; right; right; rfl
  · rw [sugarMod, climateMods_other c h1 h2 h3]; right; left; rfl

theorem sugarMod_pos (c : String) : 0 < sugarMod c := by
  rcases sugarMod_cases c with h | h | h <;> rw [h] <;> norm_num

theorem tanninMod_warm (c : String) (h : lowerAscii c = "warm") :
    tanninMod c = 11/10 := by
  rw [tanninMod, climateMods_warm c h]

theorem tanninMod_of_ne_warm (c : String) (h : lowerAscii c ≠ "warm") :
    tanninMod c = 1 := by
  by_cases h1 : lowerAscii c = "cool"
  · rw [tanninMod, climateMods_cool c h1]
  by_cases h2 : lowerAscii c = "moderate"
  · rw [tanninMod, climateMods_moderate c h2]
  · rw [tanninMod, climateMods_other c h1 h2 h]

theorem simulate_fail (data : List WineRecord) (pick : Nat) (input : SimInput)
    (h : temperatureOf input < 5 ∨ temperatureOf input > 40) :
    simulate data pick input = Except.ok (SimResult.failure failureMsg) := by
  unfold simulate
  rw [if_pos h]

theorem flavorExcept_ok (data : List WineRecord) (grape : String) (pick : Nat) :
    ∃ gc, flavorExcept data grape pick = Except.ok gc ∧
      (matchesOf data grape = [] → gc = "unknown flavor profile") ∧
      (matchesOf data grape ≠ [] →
        ∃ r ∈ matchesOf data grape, gc = r.characteristics) := by
  unfold flavorExcept chooseRand
  rcases hm : matchesOf data grape with _ | ⟨a, l⟩
  · exact ⟨"unknown flavor profile", rfl, fun _ => rfl,
      fun hne => absurd rfl hne⟩
  · have hlt : pick % (a :: l).length < (a :: l).length :=
      Nat.mod_lt _ (by simp)
    rw [if_neg (by simp), List.get?_eq_get hlt]
    exact ⟨_, rfl, by simp, fun _ => ⟨_, List.get_mem _ _ _, rfl⟩⟩

theorem simulate_success (data : List WineRecord) (pick : Nat) (input : SimInput)
    (h : ¬(temperatureOf input < 5 ∨ temperatureOf input > 40)) :
    ∃ gc, flavorExcept data input.grapeType pick = Except.ok gc ∧
      simulate data pick input =
        Except.ok (SimResult.success (successOutput input gc)) := by
  obtain ⟨gc, hgc, -, -⟩ := flavorExcept_ok data input.grapeType pick
  refine ⟨gc, hgc, ?_⟩
  unfold simulate
  rw [if_neg h, hgc]

theorem simulate_success_inv (data : List WineRecord) (pick : Nat)
    (input : SimInput) (out : SimOutput)
    (h : simulate data pick input = Except.ok (SimResult.success out)) :
    ¬(temperatureOf input < 5 ∨ temperatureOf input > 40) ∧
      ∃ gc, flavorExcept data input.grapeType pick = Except.ok gc ∧
        out = successOutput input gc := by
  unfold simulate at h
  split at h
  · simp at h
  · refine ⟨by assumption, ?_⟩
    cases hfe : flavorExcept data input.grapeType pick with
    | error e => rw [hfe] at h; simp at h
    | ok gc => rw [hfe] at h; simp at h; exact ⟨gc, rfl, h.symm⟩

@[simp] theorem successOutput_sugarContent (input : SimInput) (gc : String) :
    (successOutput input gc).sugarContent = effSugarOf input := rfl

@[simp] theorem successOutput_potentialAbv (input : SimInput) (gc : String) :
    (successOutput input gc).potentialAbv = potentialAbvOf input := rfl

@[simp] theorem successOutput_temperature (input : SimInput) (gc : String) :
    (successOutput input gc).temperature = temperatureOf input := rfl

@[simp] theorem successOutput_fermentationDays (input : SimInput) (gc : String) :
    (successOutput input gc).fermentationDays = daysOf input := rfl

@[simp] theorem successOutput_fractionFermented (input : SimInput) (gc : String) :
    (successOutput input gc).fractionFermented = fractionOf input := rfl

@[simp] theorem successOutput_actualAbv (input : SimInput) (gc : String) :
    (successOutput input gc).actualAbv = actualAbvOf input := rfl

@[simp] theorem successOutput_residualSugar (input : SimInput) (gc : String) :
    (successOutput input gc).residualSugar = residualSugarOf input := rfl

@[simp] theorem successOutput_alcoholLevel (input : SimInput) (gc : String) :
    (successOutput input gc).alcoholLevel = alcoholLevelOf (actualAbvOf input) := rfl

@[simp] theorem successOutput_tanninLevel (input : SimInput) (gc : String) :
    (successOutput input gc).tanninLevel =
      tanninAdjust (tanninBase input.grapeType) (tanninMod input.climate) := rfl

/-! ### Claim C3 -/

/-- Claim C3, counterexample: the claim asserts that every climate string
other than `"Cool"`, `"Moderate"` and `"Warm"` yields sugar modifier 1.00,
but matching is done on the lowercased string, so `"COOL"` — none of those
three strings — yields sugar modifier 0.90. -/
theorem c3_counterexample :
    sugarMod "COOL" = 9/10 ∧ (9/10 : ℚ) ≠ 1 ∧
    "COOL" ≠ "Cool" ∧ "COOL" ≠ "Moderate" ∧ "COOL" ≠ "Warm" := by
  refine ⟨?_, by norm_num, by decide, by decide, by decide⟩
  rw [sugarMod, climateMods_cool "COOL" (by decide)]

/-- Claim C3 as amended: the climate string is matched case-insensitively
(by its ASCII lowercasing): a string lowercasing to `"cool"` gives sugar
modifier 0.90 and tannin modifier 1.00, to `"moderate"` gives 1.00/1.00, to
`"warm"` gives 1.10/1.10, and any other string gives 1.00/1.00; the sugar
modifier feeds the effective sugar and the potential ABV, with conversion
constant 16.83. -/
theorem c3_climate_modifiers (c : String) :
    (lowerAscii c = "cool" → sugarMod c = 9/10 ∧ tanninMod c = 1) ∧
    (lowerAscii c = "moderate" → sugarMod c = 1 ∧ tanninMod c = 1) ∧
    (lowerAscii c = "warm" → sugarMod c = 11/10 ∧ tanninMod c = 11/10) ∧
    (lowerAscii c ≠ "cool" → lowerAscii c ≠ "moderate" → lowerAscii c ≠ "warm" →
      sugarMod c = 1 ∧ tanninMod c = 1) ∧
    (∀ input : SimInput, input.climate = c →
      effSugarOf input = (sugarInputOf input : ℚ) * sugarMod c ∧
      potentialAbvOf input = effSugarOf input / convFactor ∧
      convFactor = 16.83) := by
  refine ⟨fun h => ?_, fun h => ?_, fun h => ?_, fun h1 h2 h3 => ?_,
    fun input hi => ?_⟩
  · rw [sugarMod, tanninMod, climateMods_cool c h]; exact ⟨rfl, rfl⟩
  · rw [sugarMod, tanninMod, climateMods_moderate c h]; exact ⟨rfl, rfl⟩
  · rw [sugarMod, tanninMod, climateMods_warm c h]; exact ⟨rfl, rfl⟩
  · rw [sugarMod, tanninMod, climateMods_other c h1 h2 h3]; exact ⟨rfl, rfl⟩
  · rw [← hi]
    exact ⟨rfl, rfl, by norm_num [convFactor]⟩

/-- Claim C3 witness at the climate `"Cool"`. -/
theorem c3_witness : sugarMod "Cool" = 9/10 ∧ tanninMod "Cool" = 1 :=
  (c3_climate_modifiers "Cool").1 (by decide)

/-! ### Claim C4 -/

/-- Claim C4: a parsed temperature below 5 or above 40 short-circuits to
exactly the fermentation-failure message, whatever the other fields hold —
the failure result carries nothing but that message — while temperatures of
exactly 5 or exactly 40 proceed to a full success result. -/
theorem c4_temperature_gate (data : List WineRecord) (pick : Nat)
    (input : SimInput) :
    ((temperatureOf input < 5 ∨ temperatureOf input > 40) →
      simulate data pick input = Except.ok (SimResult.failure failureMsg)) ∧
    ((temperatureOf input = 5 ∨ temperatureOf input = 40) →
      ∃ out, simulate data pick input = Except.ok (SimResult.success out)) := by
  refine ⟨simulate_fail data pick input, fun h => ?_⟩
  have hn : ¬(temperatureOf input < 5 ∨ temperatureOf input > 40) := by
    rcases h with h | h <;> rw [h] <;> norm_num
  obtain ⟨gc, -, hs⟩ := simulate_success data pick input hn
  exact ⟨_, hs⟩

/-- Claim C4 witness: temperature `"45"` fails with the exact message,
temperature `"5"` succeeds. -/
theorem c4_witness :
    simulate [] 0 ⟨"Merlot", "10", "Oak Barrel", "200", "45", "Cool"⟩ =
      Except.ok (SimResult.failure failureMsg) ∧
    ∃ out, simulate [] 0 ⟨"Merlot", "10", "Oak Barrel", "200", "5", "Cool"⟩ =
      Except.ok (SimResult.success out) := by
  constructor
  · exact (c4_temperature_gate [] 0 _).1 (Or.inr (by decide))
  · exact (c4_temperature_gate [] 0 _).2 (Or.inl (by decide))

/-! ### Claim C6 -/

/-- Claim C6: the flavor lookup filters the table by ASCII-case-insensitive
equality with the grape field, so two grape strings that agree up to letter
case select the same rows; an empty match yields exactly the sentinel
`"unknown flavor profile"`, and a nonempty match yields the characteristics
text of some matching row. -/
theorem c6_flavor_lookup (data : List WineRecord) (g1 g2 : String) (pick : Nat)
    (hcase : eqIgnoreAsciiCase g1 g2 = true) :
    matchesOf data g1 = matchesOf data g2 ∧
    (matchesOf data g1 = [] →
      flavorExcept data g1 pick = Except.ok "unknown flavor profile") ∧
    (matchesOf data g1 ≠ [] →
      ∃ r ∈ matchesOf data g1,
        flavorExcept data g1 pick = Except.ok r.characteristics) := by
  have hl : lowerAscii g1 = lowerAscii g2 := by
    unfold eqIgnoreAsciiCase at hcase
    exact eq_of_beq hcase
  obtain ⟨gc, hgc, hemp, hne⟩ := flavorExcept_ok data g1 pick
  refine ⟨?_, fun he => ?_, fun he => ?_⟩
  · unfold matchesOf
    apply List.filter_congr
    intro r _
    unfold eqIgnoreAsciiCase
    rw [hl]
  · rw [hgc, hemp he]
  · obtain ⟨r, hr, hrc⟩ := hne he
    exact ⟨r, hr, by rw [hgc, hrc]⟩

/-- Claim C6 witness: `"merlot"` and `"Merlot"` select the same rows of a
one-row table, and the note is that row's characteristics. -/
theorem c6_witness :
    matchesOf [⟨"Merlot", "plum notes"⟩] "merlot" =
      matchesOf [⟨"Merlot", "plum notes"⟩] "Merlot" ∧
    ∃ r ∈ matchesOf [⟨"Merlot", "plum notes"⟩] "merlot",
      flavorExcept [⟨"Merlot", "plum notes"⟩] "merlot" 0 =
        Except.ok r.characteristics := by
  have h := c6_flavor_lookup [⟨"Merlot", "plum notes"⟩] "merlot" "Merlot" 0
    (by decide)
  exact ⟨h.1, h.2.2 (by decide)⟩

/-! ### Claim C7 -/

/-- Claim C7: `simulate` is total.  For every wine table, every selection
index of the random flavor choice and every combination of input field
strings, it returns a displayable result (`Except.ok`): the parse failures
fall back to zero instead of erroring, and the `unwrap()` on the chosen
flavor row — the only abort point modelled by the `Except.error` case — is
unreachable because it is guarded by the emptiness check. -/
theorem c7_totality (data : List WineRecord) (pick : Nat) (input : SimInput) :
    ∃ r, simulate data pick input = Except.ok r := by
  by_cases h : temperatureOf input < 5 ∨ temperatureOf input > 40
  · exact ⟨_, simulate_fail data pick input h⟩
  · obtain ⟨gc, -, hs⟩ := simulate_success data pick input h
    exact ⟨_, hs⟩

/-! ### Claim C10 -/

/-- Claim C10: the tannin modifier is 1.10 exactly for a climate lowercasing
to `"warm"` and 1.00 otherwise, so the tannin description is either the
grape's base text with the warm-climate suffix or the bare base text, and
never carries the cool-climate suffix. -/
theorem c10_tannin (c g : String) :
    (lowerAscii c = "warm" → tanninMod c = 11/10 ∧
      tanninAdjust (tanninBase g) (tanninMod c) =
        tanninBase g ++ " (slightly accentuated by the warm climate)") ∧
    (lowerAscii c ≠ "warm" → tanninMod c = 1 ∧
      tanninAdjust (tanninBase g) (tanninMod c) = tanninBase g) ∧
    tanninAdjust (tanninBase g) (tanninMod c) ≠
      tanninBase g ++ " (somewhat less pronounced in the cool climate)" := by
  have hwarmlen : (" (slightly accentuated by the warm climate)" : String).length = 43 := by
    decide
  have hcoollen : (" (somewhat less pronounced in the cool climate)" : String).length = 47 := by
    decide
  by_cases hw : lowerAscii c = "warm"
  · have hm := tanninMod_warm c hw
    have hadj : tanninAdjust (tanninBase g) (tanninMod c) =
        tanninBase g ++ " (slightly accentuated by the warm climate)" := by
      rw [hm]
      unfold tanninAdjust
      rw [if_pos (by norm_num)]
    refine ⟨fun _ => ⟨hm, hadj⟩, fun hne => absurd hw hne, ?_⟩
    rw [hadj]
    intro h
    have hlen := congrArg String.length h
    rw [String.length_append, String.length_append, hwarmlen, hcoollen] at hlen
    omega
  · have hm := tanninMod_of_ne_warm c hw
    have hadj : tanninAdjust (tanninBase g) (tanninMod c) = tanninBase g := by
      rw [hm]
      unfold tanninAdjust
      rw [if_neg (by norm_num), if_neg (by norm_num)]
    refine ⟨fun hy => absurd hy hw, fun _ => ⟨hm, hadj⟩, ?_⟩
    rw [hadj]
    intro h
    have hlen := congrArg String.length h
    rw [String.length_append, hcoollen] at hlen
    omega

/-- Claim C10 witness at climates `"Warm"` and `"Cool"`. -/
theorem c10_witness :
    (tanninMod "Warm" = 11/10 ∧
      tanninAdjust (tanninBase "Merlot") (tanninMod "Warm") =
        tanninBase "Merlot" ++ " (slightly accentuated by the warm climate)") ∧
    (tanninMod "Cool" = 1 ∧
      tanninAdjust (tanninBase "Merlot") (tanninMod "Cool") =
        tanninBase "Merlot") :=
  ⟨(c10_tannin "Warm" "Merlot").1 (by decide),
    (c10_tannin "Cool" "Merlot").2.1 (by decide)⟩

/-! ### Lemmas about the kinetics and the cap -/

theorem fractionClamped_le_one (t : ℚ) (d : Int) : fractionClamped t d ≤ 1 := by
  unfold fractionClamped
  split_ifs with h
  · exact le_rfl
  · exact le_of_not_lt h

theorem fractionClamped_eq_min (t : ℚ) (d : Int) :
    fractionClamped t d = min 1 (fractionRaw t d) := by
  unfold fractionClamped
  split_ifs with h
  · exact (min_eq_left (le_of_lt h)).symm
  · exact (min_eq_right (not_lt.mp h)).symm

theorem actualAbvOf_le (input : SimInput) : actualAbvOf input ≤ 15 := by
  simp only [actualAbvOf, maxAbv]
  split_ifs with h
  · exact le_rfl
  · exact le_of_not_lt h

theorem kRate_twenty : kRate 20 = 0.2 := by
  unfold kRate
  rw [show (((20:ℚ):ℝ) - 20) / 10 = 0 by push_cast; ring, Real.rpow_zero]
  norm_num

theorem fractionRaw_20_14 : fractionRaw 20 14 = 1 - Real.exp (-(2.8:ℝ)) := by
  unfold fractionRaw
  rw [kRate_twenty, show -(0.2:ℝ) * ((14:Int):ℝ) = -2.8 by push_cast; norm_num]

theorem exp_neg28_pos : 0 < Real.exp (-(2.8:ℝ)) := Real.exp_pos _

theorem exp_neg28_lt : Real.exp (-(2.8:ℝ)) < 0.3 := by
  have h1 : (3.8:ℝ) ≤ Real.exp 2.8 := by
    have := Real.add_one_le_exp (2.8:ℝ)
    linarith
  have h2 : Real.exp (-(2.8:ℝ)) * Real.exp 2.8 = 1 := by
    rw [← Real.exp_add, show -(2.8:ℝ) + 2.8 = 0 by ring, Real.exp_zero]
  nlinarith [Real.exp_pos (-(2.8:ℝ))]

theorem fractionClamped_20_14 :
    fractionClamped 20 14 = 1 - Real.exp (-(2.8:ℝ)) := by
  unfold fractionClamped
  rw [fractionRaw_20_14,
    if_neg (not_lt.mpr (by nlinarith [exp_neg28_pos]))]

/-- Concrete input with 1000 g/L of sugar over 14 days at 20 °C in a
moderate climate: its uncapped ABV lies far above the 15 % cap. -/
def inputHiSugar : SimInput := ⟨"", "14", "", "1000", "20", "Moderate"⟩

/-- Concrete input with a negative parsed sugar content. -/
def inputNegSugar : SimInput := ⟨"", "14", "", "-100", "20", "Moderate"⟩

theorem effSugar_hi : effSugarOf inputHiSugar = 1000 := by
  rw [effSugarOf, (by decide : sugarInputOf inputHiSugar = 1000),
    sugarMod, climateMods_moderate _ (by decide)]
  norm_num

theorem effSugar_neg : effSugarOf inputNegSugar = -100 := by
  rw [effSugarOf, (by decide : sugarInputOf inputNegSugar = -100),
    sugarMod, climateMods_moderate _ (by decide)]
  norm_num

theorem precapFraction_hi :
    precapFractionOf inputHiSugar = 1 - Real.exp (-(2.8:ℝ)) := by
  rw [precapFractionOf, (by decide : temperatureOf inputHiSugar = 20),
    (by decide : daysOf inputHiSugar = 14), fractionClamped_20_14]

theorem precapFraction_neg :
    precapFractionOf inputNegSugar = 1 - Real.exp (-(2.8:ℝ)) := by
  rw [precapFractionOf, (by decide : temperatureOf inputNegSugar = 20),
    (by decide : daysOf inputNegSugar = 14), fractionClamped_20_14]

theorem precapAbv_hi :
    precapAbvOf inputHiSugar = (1 - Real.exp (-(2.8:ℝ))) * 1000 / 16.83 := by
  rw [precapAbvOf, sugarConsumedOf, precapFraction_hi, effSugar_hi]
  norm_num [convFactor]

theorem precapAbv_hi_gt : precapAbvOf inputHiSugar > 15 := by
  rw [precapAbv_hi, gt_iff_lt, lt_div_iff (by norm_num : (0:ℝ) < 16.83)]
  nlinarith [exp_neg28_lt]

theorem residual_hi :
    residualSugarOf inputHiSugar = 1000 * Real.exp (-(2.8:ℝ)) := by
  rw [residualSugarOf, sugarConsumedOf, precapFraction_hi, effSugar_hi]
  push_cast
  ring

theorem residual_neg :
    residualSugarOf inputNegSugar = -(100 * Real.exp (-(2.8:ℝ))) := by
  rw [residualSugarOf, sugarConsumedOf, precapFraction_neg, effSugar_neg]
  push_cast
  ring

theorem fraction_hi_capped : fractionOf inputHiSugar = 15 * (16.83:ℝ) / 1000 := by
  rw [fractionOf]
  simp only [maxAbv]
  rw [if_pos precapAbv_hi_gt, effSugar_hi]
  norm_num [convFactor]

/-! ### Claim C1 -/

/-- Claim C1, counterexample.  First input: the cap fires, the reported
fraction is recomputed, but the residual sugar is still computed from the
pre-cap `sugar_consumed`, so it does not equal
`sugarContent − reportedFraction × sugarContent` (1000·e^(−2.8) ≈ 60.8,
against 1000 − 252.45 = 747.55).  Second input: a negative parsed sugar
content makes the residual sugar negative. -/
theorem c1_counterexample :
    (∃ out, simulate [] 0 inputHiSugar = Except.ok (SimResult.success out) ∧
      out.residualSugar ≠
        (out.sugarContent : ℝ) - out.fractionFermented * (out.sugarContent : ℝ)) ∧
    (∃ out, simulate [] 0 inputNegSugar = Except.ok (SimResult.success out) ∧
      out.residualSugar < 0) := by
  constructor
  · obtain ⟨gc, -, hs⟩ := simulate_success [] 0 inputHiSugar (by decide)
    refine ⟨_, hs, ?_⟩
    simp only [successOutput_residualSugar, successOutput_sugarContent,
      successOutput_fractionFermented]
    rw [residual_hi, fraction_hi_capped, effSugar_hi]
    push_cast
    intro hEq
    nlinarith [exp_neg28_lt, exp_neg28_pos]
  · obtain ⟨gc, -, hs⟩ := simulate_success [] 0 inputNegSugar (by decide)
    refine ⟨_, hs, ?_⟩
    simp only [successOutput_residualSugar]
    rw [residual_neg]
    nlinarith [exp_neg28_pos]

/-- Claim C1 as amended: for parsed temperature in [5,40], the reported
residual sugar equals `sugarContent×sugarModifier −
precapFraction×sugarContent×sugarModifier`, where `precapFraction` is the
fermented fraction **before** the ABV-cap recomputation (the code keeps the
pre-cap `sugar_consumed` when it recomputes the reported fraction), and the
residual sugar is nonnegative whenever the parsed sugar content is
nonnegative. -/
theorem c1_residual_sugar (data : List WineRecord) (pick : Nat)
    (input : SimInput) (out : SimOutput) (ht1 : 5 ≤ temperatureOf input)
    (ht2 : temperatureOf input ≤ 40)
    (h : simulate data pick input = Except.ok (SimResult.success out)) :
    out.residualSugar =
      (out.sugarContent : ℝ) - precapFractionOf input * (out.sugarContent : ℝ) ∧
    (0 ≤ sugarInputOf input → 0 ≤ out.residualSugar) := by
  obtain ⟨-, gc, -, hout⟩ := simulate_success_inv data pick input out h
  subst hout
  simp only [successOutput_residualSugar, successOutput_sugarContent]
  constructor
  · rw [residualSugarOf, sugarConsumedOf]
  · intro hsug
    rw [residualSugarOf, sugarConsumedOf]
    have hf : precapFractionOf input ≤ 1 := fractionClamped_le_one _ _
    have he : (0:ℝ) ≤ (effSugarOf input : ℝ) := by
      rw [effSugarOf]
      push_cast
      exact mul_nonneg (by exact_mod_cast hsug)
        (le_of_lt (by exact_mod_cast sugarMod_pos input.climate))
    nlinarith [mul_nonneg he (sub_nonneg.mpr hf)]

/-- Claim C1 witness at a concrete in-range input. -/
theorem c1_witness :
    ∃ out, simulate [] 0 inputHiSugar = Except.ok (SimResult.success out) ∧
      out.residualSugar =
        (out.sugarContent : ℝ) -
          precapFractionOf inputHiSugar * (out.sugarContent : ℝ) ∧
      0 ≤ out.residualSugar := by
  obtain ⟨gc, -, hs⟩ := simulate_success [] 0 inputHiSugar (by decide)
  obtain ⟨h1, h2⟩ := c1_residual_sugar [] 0 inputHiSugar _ (by decide)
    (by decide) hs
  exact ⟨_, hs, h1, h2 (by decide)⟩

/-! ### Claim C2 -/

/-- Claim C2: when the uncapped actual ABV exceeds 15, the reported actual
ABV is exactly 15 and the reported fermented fraction is recomputed as
`(15 × 16.83) / (sugarContent × sugarModifier)`. -/
theorem c2_abv_cap (data : List WineRecord) (pick : Nat) (input : SimInput)
    (out : SimOutput) (ht1 : 5 ≤ temperatureOf input)
    (ht2 : temperatureOf input ≤ 40) (hcap : precapAbvOf input > 15)
    (h : simulate data pick input = Except.ok (SimResult.success out)) :
    out.actualAbv = 15 ∧
    out.fractionFermented =
      15 * (convFactor : ℝ) /
        ((sugarInputOf input : ℝ) * (sugarMod input.climate : ℝ)) := by
  obtain ⟨-, gc, -, hout⟩ := simulate_success_inv data pick input out h
  subst hout
  have hcap15 : precapAbvOf input > maxAbv := by
    simp only [maxAbv]
    exact hcap
  constructor
  · simp only [successOutput_actualAbv, actualAbvOf]
    rw [if_pos hcap15]
    simp [maxAbv]
  · simp only [successOutput_fractionFermented, fractionOf]
    rw [if_pos hcap15]
    simp only [maxAbv]
    rw [effSugarOf]
    push_cast
    ring

/-- Claim C2 witness at the high-sugar input, whose uncapped ABV is above
the cap. -/
theorem c2_witness :
    5 ≤ temperatureOf inputHiSugar ∧ temperatureOf inputHiSugar ≤ 40 ∧
    precapAbvOf inputHiSugar > 15 ∧
    ∃ out, simulate [] 0 inputHiSugar = Except.ok (SimResult.success out) ∧
      out.actualAbv = 15 ∧
      out.fractionFermented =
        15 * (convFactor : ℝ) /
          ((sugarInputOf inputHiSugar : ℝ) * (sugarMod inputHiSugar.climate : ℝ)) := by
  obtain ⟨gc, -, hs⟩ := simulate_success [] 0 inputHiSugar (by decide)
  exact ⟨by decide, by decide, precapAbv_hi_gt, _, hs,
    c2_abv_cap [] 0 inputHiSugar _ (by decide) (by decide) precapAbv_hi_gt hs⟩

/-! ### Claim C5 -/

/-- Claim C5: for parsed temperature in [5,40], the fermented fraction
before any cap recomputation equals `min(1, 1 − exp(−k·days))` with
`k = 0.20 × 2^((T−20)/10)` (the explicit clamp `if > 1.0 then 1.0` of the
source is exactly this minimum). -/
theorem c5_fraction_formula (input : SimInput)
    (ht1 : 5 ≤ temperatureOf input) (ht2 : temperatureOf input ≤ 40) :
    precapFractionOf input =
      min 1 (1 - Real.exp
        (-(0.20 * (2:ℝ) ^ (((temperatureOf input : ℝ) - 20) / 10)) *
          (daysOf input : ℝ))) := by
  rw [precapFractionOf, fractionClamped_eq_min]
  rfl

/-- Claim C5 witness at the high-sugar input. -/
theorem c5_witness :
    5 ≤ temperatureOf inputHiSugar ∧ temperatureOf inputHiSugar ≤ 40 ∧
    precapFractionOf inputHiSugar =
      min 1 (1 - Real.exp
        (-(0.20 * (2:ℝ) ^ (((temperatureOf inputHiSugar : ℝ) - 20) / 10)) *
          (daysOf inputHiSugar : ℝ))) :=
  ⟨by decide, by decide, c5_fraction_formula inputHiSugar (by decide) (by decide)⟩

/-! ### Claim C9 -/

theorem alcoholLevelOf_ne_extremely_high (abv : ℝ) (h : abv ≤ 15) :
    alcoholLevelOf abv ≠ "extremely high" := by
  unfold alcoholLevelOf
  split_ifs with h1 h2 h3 h4 h5 h6
  all_goals first
    | decide
    | (intro _; have := not_lt.mp h6; linarith)

theorem alcoholLevelOf_very_high (abv : ℝ) (h : abv ≤ 15)
    (hv : alcoholLevelOf abv = "very high") : abv = 15 := by
  unfold alcoholLevelOf at hv
  split_ifs at hv with h1 h2 h3 h4 h5 h6
  all_goals first
    | (exact absurd hv (by decide))
    | (exact le_antisymm h (not_lt.mp h5))

/-- Claim C9: for parsed temperature in [5,40] and nonnegative parsed sugar
and days, the reported actual ABV is at most 15; the alcohol-level
descriptor is therefore never `"extremely high"`, and it is `"very high"`
only when the actual ABV is exactly 15, which requires the uncapped ABV to
have reached the cap. -/
theorem c9_abv_invariant (data : List WineRecord) (pick : Nat)
    (input : SimInput) (out : SimOutput) (ht1 : 5 ≤ temperatureOf input)
    (ht2 : temperatureOf input ≤ 40) (hsug : 0 ≤ sugarInputOf input)
    (hd : 0 ≤ daysOf input)
    (h : simulate data pick input = Except.ok (SimResult.success out)) :
    out.actualAbv ≤ 15 ∧ out.alcoholLevel ≠ "extremely high" ∧
    (out.alcoholLevel = "very high" →
      out.actualAbv = 15 ∧ 15 ≤ precapAbvOf input) := by
  obtain ⟨-, gc, -, hout⟩ := simulate_success_inv data pick input out h
  subst hout
  simp only [successOutput_actualAbv, successOutput_alcoholLevel]
  have hle := actualAbvOf_le input
  refine ⟨hle, alcoholLevelOf_ne_extremely_high _ hle, fun hv => ?_⟩
  have h15 := alcoholLevelOf_very_high _ hle hv
  refine ⟨h15, ?_⟩
  by_cases hc : precapAbvOf input > maxAbv
  · simp only [maxAbv] at hc
    linarith
  · have hpre : actualAbvOf input = precapAbvOf input := by
      simp only [actualAbvOf]
      rw [if_neg hc]
    rw [hpre] at h15
    exact h15.ge

/-- Claim C9 witness at the high-sugar input. -/
theorem c9_witness :
    5 ≤ temperatureOf inputHiSugar ∧ 0 ≤ sugarInputOf inputHiSugar ∧
    0 ≤ daysOf inputHiSugar ∧
    ∃ out, simulate [] 0 inputHiSugar = Except.ok (SimResult.success out) ∧
      out.actualAbv ≤ 15 ∧ out.alcoholLevel ≠ "extremely high" := by
  obtain ⟨gc, -, hs⟩ := simulate_success [] 0 inputHiSugar (by decide)
  have h := c9_abv_invariant [] 0 inputHiSugar _ (by decide) (by decide)
    (by decide) (by decide) hs
  exact ⟨by decide, by decide, by decide, _, hs, h.1, h.2.1⟩

/-! ### Claim C8 -/

/-- Claim C8: the fermentation-days and sugar-content fields go through the
signed-integer parser, so a decimal numeral such as `"220.5"` fails to
parse and is replaced by 0, while the temperature field goes through the
floating-point parser and accepts `"22.5"`; on the concrete input with all
three fields decimal, the reported days and effective sugar are 0 and the
temperature is 22.5. -/
theorem c8_integer_parsing :
    parseI32 "220.5" = none ∧ parseI32 "-3" = some (-3) ∧
    parseI32 "17" = some 17 ∧ parseF64 "220.5" = some (441/2) ∧
    ∃ out, simulate [] 0 (SimInput.mk "" "220.5" "" "220.5" "22.5" "") =
        Except.ok (SimResult.success out) ∧
      out.fermentationDays = 0 ∧ out.sugarContent = 0 ∧
      out.potentialAbv = 0 ∧ out.temperature = 45/2 := by
  have htemp : temperatureOf (SimInput.mk "" "220.5" "" "220.5" "22.5" "") = 45/2 := by
    have hp : parseF64 (trimStr "22.5") = some (decToRat ['2','2'] ['5']) := rfl
    have h2 : digitsToNat ['2','2'] = 22 := by decide
    have h3 : digitsToNat ['5'] = 5 := by decide
    simp [temperatureOf, hp, decToRat, h2, h3]
    norm_num
  have heff : effSugarOf (SimInput.mk "" "220.5" "" "220.5" "22.5" "") = 0 := by
    rw [effSugarOf,
      (by decide : sugarInputOf (SimInput.mk "" "220.5" "" "220.5" "22.5" "") = 0)]
    push_cast
    ring
  refine ⟨by decide, by decide, by decide, ?_, ?_⟩
  · have hp : parseF64 "220.5" = some (decToRat ['2','2','0'] ['5']) := rfl
    rw [hp]
    have h2 : digitsToNat ['2','2','0'] = 220 := by decide
    have h3 : digitsToNat ['5'] = 5 := by decide
    norm_num [decToRat, h2, h3]
  · have hn : ¬(temperatureOf (SimInput.mk "" "220.5" "" "220.5" "22.5" "") < 5 ∨
        temperatureOf (SimInput.mk "" "220.5" "" "220.5" "22.5" "") > 40) := by
      rw [htemp]
      norm_num
    obtain ⟨gc, -, hs⟩ := simulate_success [] 0 _ hn
    refine ⟨_, hs,
      (by decide : daysOf (SimInput.mk "" "220.5" "" "220.5" "22.5" "") = 0),
      ?_, ?_, ?_⟩
    · rw [successOutput_sugarContent, heff]
    · rw [successOutput_potentialAbv, potentialAbvOf, heff]
      simp
    · rw [successOutput_temperature, htemp]

end WineMaker
